import Mathlib

/-
Verification of the UserAnalytics session tracker (user-analytics.js) and its
post-rendering helpers.  The JavaScript class is shallowly embedded: JS objects
used as string-keyed counter maps become association lists in insertion order,
JS truthiness tests on strings and numbers are made explicit, remote Firestore
writes become an explicit list of write descriptors emitted by each operation,
and the arithmetic on possibly-undefined JS numbers is modelled by an explicit
NaN-aware value type.
-/

/-- A JS number that may be NaN (the result of arithmetic on undefined). -/
inductive JSNum
  | num (n : Nat)
  | nan
deriving DecidableEq

/-- JS truthiness coercion for an optional string: null, undefined and the
empty string are falsy; models an expression of the form (s or default). -/
def jsStrOrNone : Option String → Option String
  | none => none
  | some s => if s = "" then none else some s

/-- JS truthiness for an optional number: undefined and 0 are falsy; models
an expression of the form (n or default). -/
def jsNatOr (o : Option Nat) (d : Nat) : Nat :=
  match o with
  | none => d
  | some n => if n = 0 then d else n

/-- A JS object used as a string-to-counter map, kept in insertion order
(the iteration order of a for-in loop over its non-numeric keys). -/
abbrev ObjMap := List (String × Nat)

/-- Property read obj[k]: the stored count, or undefined when absent. -/
def ObjMap.get (m : ObjMap) (k : String) : Option Nat :=
  List.lookup k m

/-- In-place value replacement for a key that is already present. -/
def ObjMap.set (m : ObjMap) (k : String) (v : Nat) : ObjMap :=
  m.map (fun p => if p.1 = k then (k, v) else p)

/-- The two-step JS idiom: if (not obj[k]) obj[k] = 0; obj[k]++ .
An absent key is appended with count 1; a present key is bumped in place. -/
def ObjMap.incr (m : ObjMap) (k : String) : ObjMap :=
  match ObjMap.get m k with
  | some n => ObjMap.set m k (n + 1)
  | none => m ++ [(k, 1)]

/-- All stored counts are positive (true of every map the tracker builds,
since entries are only ever created by incrementing). -/
def ObjMap.AllPos (m : ObjMap) : Prop := ∀ p ∈ m, 0 < p.2

instance (m : ObjMap) : Decidable (ObjMap.AllPos m) :=
  List.decidableBAll _ m

/-- Substring test on character lists, the semantics of indexOf(tok) > -1. -/
def listContains (pat : List Char) : List Char → Bool
  | [] => pat.isEmpty
  | c :: rest => pat.isPrefixOf (c :: rest) || listContains pat rest

/-- ua.indexOf(token) > -1 : case-sensitive substring containment. -/
def jsIncludes (s token : String) : Bool :=
  listContains token.toList s.toList

/-- Case-insensitive token test, the semantics of a /token/i regex test. -/
def jsIncludesCI (s token : String) : Bool :=
  jsIncludes s.toLower token.toLower

/-- getDeviceInfo: mobile regex checked before tablet regex, else desktop. -/
def getDeviceInfo (ua : String) : String :=
  if ["Android", "webOS", "iPhone", "iPad", "iPod", "BlackBerry", "IEMobile",
      "Opera Mini"].any (fun t => jsIncludesCI ua t) then
    "mobile"
  else if ["iPad", "Tablet", "PlayBook"].any (fun t => jsIncludesCI ua t) then
    "tablet"
  else
    "desktop"

/-- getBrowserInfo: browser tokens tested in source order, first match wins. -/
def getBrowserInfo (ua : String) : String :=
  if jsIncludes ua "Chrome" then "Chrome"
  else if jsIncludes ua "Safari" then "Safari"
  else if jsIncludes ua "Firefox" then "Firefox"
  else if jsIncludes ua "MSIE" || jsIncludes ua "Trident" then "IE"
  else if jsIncludes ua "Edge" then "Edge"
  else "Unknown"

/-- The for-in max scan of getMostFrequent, carrying the running maximum and
its key; the running maximum starts at 0 with key null. -/
def getMostFrequentAux : ObjMap → Nat → Option String → Option String
  | [], _, maxKey => maxKey
  | p :: rest, mx, maxKey =>
    if p.2 > mx then getMostFrequentAux rest p.2 (some p.1)
    else getMostFrequentAux rest mx maxKey

/-- getMostFrequent(obj): single left-to-right scan over the map. -/
def getMostFrequent (obj : ObjMap) : Option String :=
  getMostFrequentAux obj 0 none

/-- Spec-side reading: the maximum count occurring in the map (0 if empty). -/
def maxCountSpec : ObjMap → Nat
  | [] => 0
  | p :: rest => Nat.max p.2 (maxCountSpec rest)

/-- Spec-side reading of the claimed invariant: the first key, in insertion
order, whose count equals the maximum count of the map. -/
def firstAtMax (m : ObjMap) : Option String :=
  (m.find? (fun p => p.2 == maxCountSpec m)).map Prod.fst

/-- The geo payload of the identity-resolution endpoint. -/
structure GeoData where
  country : Option String
  city : Option String
  region : Option String
  latitude : Option String
  longitude : Option String
deriving DecidableEq

def GeoData.empty : GeoData := ⟨none, none, none, none, none⟩

/-- this.userProfile.  The username field exists only because createPost reads
it; no statement in the source ever assigns it. -/
structure UserProfile where
  ip : Option String
  location : GeoData
  device : String
  browser : String
  firstSeen : Nat
  returning : Bool
  username : Option String
deriving DecidableEq

/-- One entry of this.sessionData.searches. -/
structure SearchRec where
  query : String
  filters : List (String × String)
  timestamp : Nat
deriving DecidableEq

/-- One entry of this.sessionData.interactions. -/
structure InteractionRec where
  type : String
  details : List (String × String)
  timestamp : Nat
deriving DecidableEq

/-- this.sessionData.casinoPreferences. -/
structure CasinoPreferences where
  viewed : ObjMap
  clicked : ObjMap
  amenitiesSelected : ObjMap
  typePreference : Option String
deriving DecidableEq

/-- this.sessionData. -/
structure SessionData where
  pageViews : Nat
  startTime : Nat
  searches : List SearchRec
  interactions : List InteractionRec
  casinoPreferences : CasinoPreferences
deriving DecidableEq

/-- The mutable fields of a UserAnalytics instance.  previousVisits is only
assigned on the returning-user path of checkReturningUser; none models the
undefined it holds otherwise. -/
structure TrackerState where
  sessionStartTime : Nat
  sessionId : String
  userProfile : UserProfile
  previousVisits : Option Nat
  sessionData : SessionData
  isAuthenticated : Bool
  userId : Option String
  userEmail : Option String
deriving DecidableEq

/-- The UserAnalytics constructor, parameterised by the ambient user agent,
the random session id and the construction time. -/
def UserAnalytics.new (ua sid : String) (t0 : Nat) : TrackerState :=
  { sessionStartTime := t0
    sessionId := sid
    userProfile :=
      { ip := none
        location := GeoData.empty
        device := getDeviceInfo ua
        browser := getBrowserInfo ua
        firstSeen := t0
        returning := false
        username := none }
    previousVisits := none
    sessionData :=
      { pageViews := 0
        startTime := t0
        searches := []
        interactions := []
        casinoPreferences :=
          { viewed := []
            clicked := []
            amenitiesSelected := []
            typePreference := none } }
    isAuthenticated := false
    userId := none
    userEmail := none }

/-- The preference aggregate of a stored users_by_ip document. -/
structure StoredPrefs where
  mostViewedType : Option String
deriving DecidableEq

/-- The fields of a stored users_by_ip document that the tracker reads. -/
structure StoredUser where
  visitCount : Option Nat
  preferences : Option StoredPrefs
deriving DecidableEq

/-- The external collaborators: availability of the firebase global, of the
analytics sink, and the users_by_ip lookup result per identity key. -/
structure Env where
  firebaseAvailable : Bool
  analyticsAvailable : Bool
  storedRecord : String → Option StoredUser

/-- The preference categories of logCasinoPreference. -/
inductive PrefType
  | category
  | click
  | amenity
  | rating
  | distance
deriving DecidableEq

def PrefType.str : PrefType → String
  | .category => "category"
  | .click => "click"
  | .amenity => "amenity"
  | .rating => "rating"
  | .distance => "distance"

/-- The update object built by updatePreferencesInFirebase for one call. -/
inductive PrefUpdate
  | categoryIncr (value : String) (mostViewedType : Option String)
  | amenityIncr (value : String)
  | ratingSet (value : String)
  | distanceSet (value : String)
  | clickIncr (value : String)
deriving DecidableEq

/-- One fire-and-forget remote write, as emitted by the tracker.  Ambient
server-timestamp and user-agent fields of the written documents are omitted;
only the payload drawn from tracker state is kept. -/
inductive RemoteWrite
  | visitCountIncrement (ip : String)
  | callerCreate (ip : String) (device : String)
  | callerUpdate (ip : String) (update : PrefUpdate)
  | userEventAdd (ip : String) (prefType : String) (value : String) (sid : String)
  | sessionEventAdd (ip : String) (sid : String) (eventType : String)
      (details : List (String × String))
  | sessionSummarySet (ip : String) (sid : String) (pageViews : Nat)
      (duration : Nat) (searches : Nat) (interactions : Nat)
  | linkUserMapping (uid : String) (ip : String)
  | linkCallerUser (ip : String) (uid : String)
  | analyticsLog (eventType : String)
deriving DecidableEq

/-- Every write keyed by the caller ip; the analytics sink is not. -/
def RemoteWrite.isIdentityKeyed : RemoteWrite → Bool
  | .analyticsLog _ => false
  | _ => true

/-- logEvent(event_type, details): unconditionally appends the interaction
record, then fires the per-session event and summary writes when firebase and
the identity key are available, and an analytics write when the sink exists. -/
def logEvent (env : Env) (st : TrackerState) (etype : String)
    (details : List (String × String)) (now : Nat) :
    TrackerState × List RemoteWrite :=
  let st' := { st with
    sessionData.interactions :=
      st.sessionData.interactions ++ [⟨etype, details, now⟩] }
  let fbWrites :=
    match jsStrOrNone st.userProfile.ip with
    | some ip =>
      if env.firebaseAvailable then
        [RemoteWrite.sessionEventAdd ip st.sessionId etype details,
         RemoteWrite.sessionSummarySet ip st.sessionId st'.sessionData.pageViews
           ((now - st.sessionStartTime) / 1000)
           st'.sessionData.searches.length st'.sessionData.interactions.length]
      else []
    | none => []
  let anWrites :=
    if env.firebaseAvailable && env.analyticsAvailable then
      [RemoteWrite.analyticsLog etype]
    else []
  (st', fbWrites ++ anWrites)

/-- logPageView: bumps the page-view counter, then logs a page_view event
whose details come from the ambient document. -/
def logPageView (env : Env) (st : TrackerState)
    (details : List (String × String)) (now : Nat) :
    TrackerState × List RemoteWrite :=
  let st1 := { st with sessionData.pageViews := st.sessionData.pageViews + 1 }
  logEvent env st1 "page_view" details now

/-- logSearch(query, filters): appends the search record, then logs a search
event carrying the query and the filters. -/
def logSearch (env : Env) (st : TrackerState) (q : String)
    (filters : List (String × String)) (now : Nat) :
    TrackerState × List RemoteWrite :=
  let st1 := { st with
    sessionData.searches := st.sessionData.searches ++ [⟨q, filters, now⟩] }
  logEvent env st1 "search" (("query", q) :: filters) now

/-- updatePreferencesInFirebase(type, value): builds the update object for the
caller record and appends a user_events entry; a no-op without firebase or
without a truthy identity key. -/
def updatePreferencesInFirebase (env : Env) (st : TrackerState)
    (t : PrefType) (value : String) : List RemoteWrite :=
  if env.firebaseAvailable then
    match jsStrOrNone st.userProfile.ip with
    | some ip =>
      let u : PrefUpdate :=
        match t with
        | .category =>
          .categoryIncr value st.sessionData.casinoPreferences.typePreference
        | .amenity => .amenityIncr value
        | .rating => .ratingSet value
        | .distance => .distanceSet value
        | .click => .clickIncr value
      [RemoteWrite.callerUpdate ip u,
       RemoteWrite.userEventAdd ip t.str value st.sessionId]
    | none => []
  else []

/-- logCasinoPreference(type, value): the switch updates the in-memory
aggregates (category also recomputes typePreference; rating and distance have
no case and touch nothing in memory), then one casino_preference event is
logged and the remote preference update is fired. -/
def logCasinoPreference (env : Env) (st : TrackerState) (t : PrefType)
    (value : String) (now : Nat) : TrackerState × List RemoteWrite :=
  let prefs := st.sessionData.casinoPreferences
  let prefs' :=
    match t with
    | .category =>
      let v' := ObjMap.incr prefs.viewed value
      { prefs with viewed := v', typePreference := getMostFrequent v' }
    | .click => { prefs with clicked := ObjMap.incr prefs.clicked value }
    | .amenity =>
      { prefs with amenitiesSelected := ObjMap.incr prefs.amenitiesSelected value }
    | .rating => prefs
    | .distance => prefs
  let st1 := { st with sessionData.casinoPreferences := prefs' }
  let cnt := jsNatOr (ObjMap.get prefs'.viewed value) 1
  let (st2, ws1) := logEvent env st1 "casino_preference"
    [("preferenceType", t.str), ("value", value), ("count", toString cnt)] now
  let ws2 := updatePreferencesInFirebase env st2 t value
  (st2, ws1 ++ ws2)

/-- checkReturningUser: guarded by firebase and a truthy identity key; a found
record marks the visitor returning, captures the stored visit count, bumps it
remotely and seeds typePreference from the stored aggregate; a missing record
is created fresh. -/
def checkReturningUser (env : Env) (st : TrackerState) :
    TrackerState × List RemoteWrite :=
  if env.firebaseAvailable then
    match jsStrOrNone st.userProfile.ip with
    | some ip =>
      match env.storedRecord ip with
      | some userData =>
        ({ st with
            userProfile.returning := true
            previousVisits := some (userData.visitCount.getD 0)
            sessionData.casinoPreferences.typePreference :=
              match userData.preferences with
              | some p => jsStrOrNone p.mostViewedType
              | none => st.sessionData.casinoPreferences.typePreference },
         [RemoteWrite.visitCountIncrement ip])
      | none => (st, [RemoteWrite.callerCreate ip st.userProfile.device])
    | none => (st, [])
  else (st, [])

/-- linkUserWithIP: both association writes, guarded by firebase, a truthy
user id and a truthy identity key. -/
def linkUserWithIP (env : Env) (st : TrackerState) : List RemoteWrite :=
  if env.firebaseAvailable then
    match jsStrOrNone st.userId, jsStrOrNone st.userProfile.ip with
    | some uid, some ip =>
      [RemoteWrite.linkUserMapping uid ip, RemoteWrite.linkCallerUser ip uid]
    | _, _ => []
  else []

/-- The auth_state_changed payload. -/
structure AuthUser where
  uid : String
  email : String
deriving DecidableEq

/-- handleAuthChange: a signed-in payload captures uid and email, logs a
user_login event and links the identity; a signed-out payload clears the
authenticated fields and logs a user_logout event. -/
def handleAuthChange (env : Env) (st : TrackerState) (user : Option AuthUser)
    (now : Nat) : TrackerState × List RemoteWrite :=
  match user with
  | some u =>
    let st1 := { st with
      isAuthenticated := true
      userId := some u.uid
      userEmail := some u.email }
    let (st2, ws) := logEvent env st1 "user_login"
      [("user_id", u.uid), ("user_email", u.email)] now
    (st2, ws ++ linkUserWithIP env st2)
  | none =>
    let st1 := { st with
      isAuthenticated := false
      userId := none
      userEmail := none }
    logEvent env st1 "user_logout" [] now

/-- The identity-resolution response. -/
structure IpGeo where
  ip : String
  geo : GeoData
deriving DecidableEq

/-- The outcome of the initialization protocol: the resulting state, the
remote writes fired, which of the later steps ran, and whether the promise
rejected (it never does: the enclosing catch swallows every failure). -/
structure InitResult where
  state : TrackerState
  writes : List RemoteWrite
  listenersAttached : Bool
  pageViewLogged : Bool
  authSubscribed : Bool
  threw : Bool
deriving DecidableEq

/-- initialize(): one try block covering every step.  A failed identity fetch
(fetchResult = none) is caught, and none of the later steps run; a successful
fetch stores ip and geo, then runs the returning-user check, listener
attachment, the initial page view and the auth subscription in order. -/
def initTracker (env : Env) (ctor : TrackerState) (fetchResult : Option IpGeo)
    (pvDetails : List (String × String)) (now : Nat) : InitResult :=
  match fetchResult with
  | none => ⟨ctor, [], false, false, false, false⟩
  | some d =>
    let st1 := { ctor with userProfile.ip := some d.ip, userProfile.location := d.geo }
    let (st2, ws1) := checkReturningUser env st1
    let (st3, ws2) := logPageView env st2 pvDetails now
    ⟨st3, ws1 ++ ws2, true, true, true, false⟩

/-- The externally triggered operations of a page lifetime, each carrying the
wall-clock instant at which its handler fires. -/
inductive Op
  | pageView (details : List (String × String)) (now : Nat)
  | search (q : String) (filters : List (String × String)) (now : Nat)
  | casinoPref (t : PrefType) (value : String) (now : Nat)
  | authChange (user : Option AuthUser) (now : Nat)
  | genericEvent (etype : String) (details : List (String × String)) (now : Nat)
deriving DecidableEq

def stepOp (env : Env) (st : TrackerState) : Op → TrackerState × List RemoteWrite
  | .pageView d now => logPageView env st d now
  | .search q f now => logSearch env st q f now
  | .casinoPref t v now => logCasinoPreference env st t v now
  | .authChange u now => handleAuthChange env st u now
  | .genericEvent e d now => logEvent env st e d now

def runOps (env : Env) (st : TrackerState) (ops : List Op) : TrackerState :=
  ops.foldl (fun s o => (stepOp env s o).1) st

/-- The preference block of the remote users_by_ip caller record. -/
structure CallerPrefs where
  categories : ObjMap
  amenities : ObjMap
  clicked : ObjMap
  mostViewedType : Option String
  ratingPreference : Option String
  distancePreference : Option String
deriving DecidableEq

/-- A field increment on a possibly missing document field treats the missing
field as 0, so it coincides with the insertion-order increment. -/
def applyPrefUpdate (p : CallerPrefs) : PrefUpdate → CallerPrefs
  | .categoryIncr v mv =>
    { p with categories := ObjMap.incr p.categories v, mostViewedType := mv }
  | .amenityIncr v => { p with amenities := ObjMap.incr p.amenities v }
  | .ratingSet v => { p with ratingPreference := some v }
  | .distanceSet v => { p with distancePreference := some v }
  | .clickIncr v => { p with clicked := ObjMap.incr p.clicked v }

/-- Effect of one remote write on the caller record's preference block; the
event, session and mapping writes land elsewhere. -/
def applyWrite (p : CallerPrefs) : RemoteWrite → CallerPrefs
  | .callerUpdate _ u => applyPrefUpdate p u
  | _ => p

def applyWrites (p : CallerPrefs) (ws : List RemoteWrite) : CallerPrefs :=
  ws.foldl applyWrite p

/-- One operation together with the landing of its remote writes on the
caller record's preference block. -/
def stepWithRemote (env : Env) (x : TrackerState × CallerPrefs) (op : Op) :
    TrackerState × CallerPrefs :=
  let r := stepOp env x.1 op
  (r.1, applyWrites x.2 r.2)

def runWithRemote (env : Env) (x : TrackerState × CallerPrefs)
    (ops : List Op) : TrackerState × CallerPrefs :=
  ops.foldl (stepWithRemote env) x

/-- A posts/{auto} document as createPost writes it. -/
structure PostDoc where
  userId : String
  username : String
  text : String
  videoUrl : Option String
deriving DecidableEq

/-- The post document built by createPost: userId is this.userId with the
anonymous fallback, username is this.userProfile.username with the Anonymous
fallback (both JS truthiness tests). -/
def createPostDoc (st : TrackerState) (text : String)
    (videoUrl : Option String) : PostDoc :=
  { userId := (jsStrOrNone st.userId).getD "anonymous"
    username := (jsStrOrNone st.userProfile.username).getD "Anonymous"
    text := text
    videoUrl := videoUrl }

/-- One child appended to the posts container. -/
inductive RenderedItem
  | post (p : PostDoc)
  | ad
deriving DecidableEq

/-- The render loop of loadPosts over the query results, carried with the
running index: an ad block is appended just before the post exactly when
index > 0 and index mod 5 = 0. -/
def renderPostsAux : Nat → List PostDoc → List RenderedItem
  | _, [] => []
  | i, p :: rest =>
    (if 0 < i ∧ i % 5 = 0 then [RenderedItem.ad] else [])
      ++ RenderedItem.post p :: renderPostsAux (i + 1) rest

/-- loadPosts: without firebase it returns before touching the container;
otherwise the container is cleared first, and then either the query results
are rendered or the error is caught leaving the container empty.  The query
argument stands for the descending-timestamp snapshot or its failure. -/
def loadPosts (env : Env) (container : List RenderedItem)
    (query : Except Unit (List PostDoc)) : List RenderedItem :=
  if env.firebaseAvailable then
    match query with
    | .ok posts => renderPostsAux 0 posts
    | .error _ => []
  else container

/-- getTopInterests: the viewed counts sorted by descending frequency (stable,
so ties keep insertion order), truncated to 3 labels. -/
def getTopInterests (st : TrackerState) : List String :=
  ((st.sessionData.casinoPreferences.viewed.mergeSort
      (fun a b => b.2 ≤ a.2)).take 3).map Prod.fst

structure InsightsProfile where
  isNewUser : Bool
  visits : JSNum
  location : GeoData
deriving DecidableEq

structure InsightsBehavior where
  sessionDuration : Nat
  pageViews : Nat
  searchCount : Nat
  mainInterests : List String
  primaryCasinoType : Option String
deriving DecidableEq

structure Insights where
  profile : InsightsProfile
  behavior : InsightsBehavior
  prefCasinoTypes : ObjMap
  prefAmenities : ObjMap
deriving DecidableEq

/-- getUserInsights(): a pure projection of the in-memory state.  visits is
this.previousVisits + 1, which is NaN whenever previousVisits was never
assigned (JS addition on undefined). -/
def getUserInsights (st : TrackerState) (now : Nat) : Insights :=
  { profile :=
      { isNewUser := !st.userProfile.returning
        visits :=
          match st.previousVisits with
          | some n => JSNum.num (n + 1)
          | none => JSNum.nan
        location := st.userProfile.location }
    behavior :=
      { sessionDuration := (now - st.sessionStartTime) / 1000
        pageViews := st.sessionData.pageViews
        searchCount := st.sessionData.searches.length
        mainInterests := getTopInterests st
        primaryCasinoType := st.sessionData.casinoPreferences.typePreference }
    prefCasinoTypes := st.sessionData.casinoPreferences.viewed
    prefAmenities := st.sessionData.casinoPreferences.amenitiesSelected }

/-- The number of page-view operations in a run (the logPageView calls). -/
def countPageViews (ops : List Op) : Nat :=
  ops.countP (fun op => match op with | .pageView _ _ => true | _ => false)

/-- A sequence of category preference calls, value and instant each. -/
def runCategoryCalls (env : Env) (st : TrackerState)
    (vs : List (String × Nat)) : TrackerState :=
  vs.foldl (fun s vn => (logCasinoPreference env s .category vn.1 vn.2).1) st

lemma maxCountSpec_cons (p : String × Nat) (rest : ObjMap) :
    maxCountSpec (p :: rest) = Nat.max p.2 (maxCountSpec rest) := rfl

/-- The running max scan, characterised: it keeps the seed when nothing beats
it, and otherwise lands on the first key whose count equals the map maximum. -/
lemma getMostFrequentAux_eq (l : ObjMap) : ∀ (mx : Nat) (k : Option String),
    getMostFrequentAux l mx k =
      if maxCountSpec l ≤ mx then k
      else (l.find? (fun p => p.2 == maxCountSpec l)).map Prod.fst := by
  induction l with
  | nil =>
    intro mx k
    simp [getMostFrequentAux, maxCountSpec]
  | cons p rest ih =>
    intro mx k
    rw [getMostFrequentAux, maxCountSpec_cons]
    rcases Nat.lt_or_ge mx p.2 with hpm | hpm
    · rw [if_pos hpm, ih]
      rcases le_or_lt (maxCountSpec rest) p.2 with hr | hr
      · rw [if_pos hr]
        have hmax : Nat.max p.2 (maxCountSpec rest) = p.2 := Nat.max_eq_left hr
        rw [hmax, if_neg (by omega)]
        simp [List.find?]
      · rw [if_neg (by omega)]
        have hmax : Nat.max p.2 (maxCountSpec rest) = maxCountSpec rest :=
          Nat.max_eq_right (Nat.le_of_lt hr)
        rw [hmax, if_neg (by omega)]
        have hne : (p.2 == maxCountSpec rest) = false := by
          simp only [beq_eq_false_iff_ne, ne_eq]
          omega
        simp [List.find?, hne]
    · rw [if_neg (by omega), ih]
      rcases le_or_lt (maxCountSpec rest) mx with hr | hr
      · rw [if_pos hr, if_pos (Nat.max_le.mpr ⟨hpm, hr⟩)]
      · rw [if_neg (by omega)]
        have hmax : Nat.max p.2 (maxCountSpec rest) = maxCountSpec rest := by
          have : p.2 ≤ maxCountSpec rest := by omega
          exact Nat.max_eq_right this
        rw [hmax, if_neg (by omega)]
        have hne : (p.2 == maxCountSpec rest) = false := by
          simp only [beq_eq_false_iff_ne, ne_eq]
          omega
        simp [List.find?, hne]

/-- On a map whose maximum count is positive, the source scan agrees with the
first-key-at-maximum reading of the spec. -/
lemma getMostFrequent_eq_firstAtMax (m : ObjMap) (h : 0 < maxCountSpec m) :
    getMostFrequent m = firstAtMax m := by
  unfold getMostFrequent firstAtMax
  rw [getMostFrequentAux_eq, if_neg (by omega)]

lemma ObjMap.incr_allPos {m : ObjMap} (k : String) (h : ObjMap.AllPos m) :
    ObjMap.AllPos (ObjMap.incr m k) := by
  unfold ObjMap.incr
  cases hget : ObjMap.get m k with
  | none =>
    intro p hp
    rcases List.mem_append.mp hp with hp | hp
    · exact h p hp
    · simp at hp
      simp [hp]
  | some n =>
    intro p hp
    unfold ObjMap.set at hp
    rcases List.mem_map.mp hp with ⟨q, hq, hqe⟩
    by_cases hqk : q.1 = k
    · rw [if_pos hqk] at hqe
      rw [← hqe]
      simp
    · rw [if_neg hqk] at hqe
      exact hqe ▸ h q hq

lemma ObjMap.incr_ne_nil (m : ObjMap) (k : String) : ObjMap.incr m k ≠ [] := by
  unfold ObjMap.incr
  cases hget : ObjMap.get m k with
  | none => simp
  | some n =>
    cases m with
    | nil => simp [ObjMap.get, List.lookup] at hget
    | cons p rest => simp [ObjMap.set]

lemma maxCountSpec_pos {m : ObjMap} (hne : m ≠ []) (hpos : ObjMap.AllPos m) :
    0 < maxCountSpec m := by
  cases m with
  | nil => exact absurd rfl hne
  | cons p rest =>
    have := hpos p (List.mem_cons_self p rest)
    rw [maxCountSpec_cons]
    exact Nat.lt_of_lt_of_le this (Nat.le_max_left _ _)

/-- One category call: the viewed map is incremented and typePreference is
recomputed from the incremented map; the remote update does not feed back. -/
lemma category_step_viewed (env : Env) (st : TrackerState) (v : String)
    (now : Nat) :
    (logCasinoPreference env st .category v now).1.sessionData.casinoPreferences.viewed
      = ObjMap.incr st.sessionData.casinoPreferences.viewed v := rfl

lemma category_step_typePreference (env : Env) (st : TrackerState) (v : String)
    (now : Nat) :
    (logCasinoPreference env st .category v now).1.sessionData.casinoPreferences.typePreference
      = getMostFrequent (ObjMap.incr st.sessionData.casinoPreferences.viewed v) := rfl

lemma runCategoryCalls_cons (env : Env) (st : TrackerState)
    (vn : String × Nat) (vs : List (String × Nat)) :
    runCategoryCalls env st (vn :: vs)
      = runCategoryCalls env ((logCasinoPreference env st .category vn.1 vn.2).1) vs := rfl

/-- After a nonempty run of category calls the viewed map is nonempty with
positive counts and typePreference was recomputed from it by the scan. -/
lemma runCategoryCalls_invariant (env : Env) (vs : List (String × Nat))
    (hne : vs ≠ []) : ∀ st : TrackerState,
    ObjMap.AllPos st.sessionData.casinoPreferences.viewed →
    ObjMap.AllPos (runCategoryCalls env st vs).sessionData.casinoPreferences.viewed ∧
    (runCategoryCalls env st vs).sessionData.casinoPreferences.viewed ≠ [] ∧
    (runCategoryCalls env st vs).sessionData.casinoPreferences.typePreference
      = getMostFrequent (runCategoryCalls env st vs).sessionData.casinoPreferences.viewed := by
  induction vs with
  | nil => exact absurd rfl hne
  | cons vn rest ih =>
    intro st hpos
    rw [runCategoryCalls_cons]
    cases rest with
    | nil =>
      refine ⟨?_, ?_, ?_⟩
      · show ObjMap.AllPos
          (logCasinoPreference env st .category vn.1 vn.2).1.sessionData.casinoPreferences.viewed
        rw [category_step_viewed]
        exact ObjMap.incr_allPos vn.1 hpos
      · show (logCasinoPreference env st .category vn.1 vn.2).1.sessionData.casinoPreferences.viewed ≠ []
        rw [category_step_viewed]
        exact ObjMap.incr_ne_nil _ _
      · show (logCasinoPreference env st .category vn.1 vn.2).1.sessionData.casinoPreferences.typePreference
          = getMostFrequent (logCasinoPreference env st .category vn.1 vn.2).1.sessionData.casinoPreferences.viewed
        rw [category_step_typePreference, category_step_viewed]
    | cons wn ws =>
      refine ih (by simp) _ ?_
      rw [category_step_viewed]
      exact ObjMap.incr_allPos vn.1 hpos

/-- C1: for every sequence of record_preference(category, v) calls starting
from any state whose viewed counts are positive (the fresh tracker included),
after each call the derived typePreference equals the label with the maximum
count in the viewed map, ties broken in favour of the first-encountered key at
the maximum during a single left-to-right scan in insertion order. -/
theorem c1_typePreference_is_firstAtMax (env : Env) (st : TrackerState)
    (vs : List (String × Nat))
    (hpos : ObjMap.AllPos st.sessionData.casinoPreferences.viewed)
    (hne : vs ≠ []) :
    (runCategoryCalls env st vs).sessionData.casinoPreferences.typePreference
      = firstAtMax (runCategoryCalls env st vs).sessionData.casinoPreferences.viewed := by
  obtain ⟨hall, hnil, htp⟩ := runCategoryCalls_invariant env vs hne st hpos
  rw [htp]
  exact getMostFrequent_eq_firstAtMax _ (maxCountSpec_pos hnil hall)

/-- Concrete instance of C1: three category calls from the fresh tracker. -/
theorem c1_witness :
    ObjMap.AllPos (UserAnalytics.new "ua" "sid" 0).sessionData.casinoPreferences.viewed ∧
    ([("slots", 1), ("poker", 2), ("slots", 3)] : List (String × Nat)) ≠ [] ∧
    (runCategoryCalls ⟨true, false, fun _ => none⟩ (UserAnalytics.new "ua" "sid" 0)
        [("slots", 1), ("poker", 2), ("slots", 3)]).sessionData.casinoPreferences.typePreference
      = firstAtMax (runCategoryCalls ⟨true, false, fun _ => none⟩
          (UserAnalytics.new "ua" "sid" 0)
          [("slots", 1), ("poker", 2), ("slots", 3)]).sessionData.casinoPreferences.viewed :=
  ⟨by decide, by decide,
   c1_typePreference_is_firstAtMax ⟨true, false, fun _ => none⟩
     (UserAnalytics.new "ua" "sid" 0) [("slots", 1), ("poker", 2), ("slots", 3)]
     (by decide) (by decide)⟩

/-- A concrete environment: firebase present, no analytics sink, an empty
users_by_ip store. -/
def envStd : Env := ⟨true, false, fun _ => none⟩

/-- A concrete fresh tracker instance. -/
def freshTracker : TrackerState := UserAnalytics.new "ua" "sid" 0

/-- C2 counterexample: when the identity fetch fails, the single try block of
initialize swallows the error but also skips listener attachment, the initial
page view and the auth subscription, contrary to the claim that each remaining
step still runs. -/
theorem c2_counterexample :
    (initTracker envStd freshTracker none [] 0).listenersAttached = false ∧
    (initTracker envStd freshTracker none [] 0).pageViewLogged = false ∧
    (initTracker envStd freshTracker none [] 0).authSubscribed = false :=
  ⟨rfl, rfl, rfl⟩

/-- C2 amended: initialize never throws (the catch swallows every failure),
but listener attachment, the initial page view and the auth subscription run
exactly when identity resolution succeeded; a failure there skips them all. -/
theorem c2_amended_init_steps (env : Env) (ctor : TrackerState)
    (fetchResult : Option IpGeo) (pvDetails : List (String × String))
    (now : Nat) :
    (initTracker env ctor fetchResult pvDetails now).threw = false ∧
    (initTracker env ctor fetchResult pvDetails now).listenersAttached
      = fetchResult.isSome ∧
    (initTracker env ctor fetchResult pvDetails now).pageViewLogged
      = fetchResult.isSome ∧
    (initTracker env ctor fetchResult pvDetails now).authSubscribed
      = fetchResult.isSome := by
  cases fetchResult <;> simp [initTracker]

/-- The page-view counter moves only on a page-view operation. -/
lemma stepOp_pageViews (env : Env) (st : TrackerState) (op : Op) :
    (stepOp env st op).1.sessionData.pageViews
      = st.sessionData.pageViews
        + (match op with | .pageView _ _ => 1 | _ => 0) := by
  cases op with
  | pageView d now => rfl
  | search q f now => rfl
  | casinoPref t v now => cases t <;> rfl
  | authChange u now => cases u <;> rfl
  | genericEvent e d now => rfl

lemma runOps_pageViews (env : Env) (ops : List Op) : ∀ st : TrackerState,
    (runOps env st ops).sessionData.pageViews
      = st.sessionData.pageViews + countPageViews ops := by
  induction ops with
  | nil => intro st; simp [runOps, countPageViews]
  | cons op rest ih =>
    intro st
    show (runOps env ((stepOp env st op).1) rest).sessionData.pageViews = _
    rw [ih, stepOp_pageViews]
    unfold countPageViews
    rw [List.countP_cons]
    cases op <;> first
      | (simp; omega)
      | simp

/-- checkReturningUser never moves the page-view counter. -/
lemma checkReturningUser_pageViews (env : Env) (st : TrackerState) :
    (checkReturningUser env st).1.sessionData.pageViews
      = st.sessionData.pageViews := by
  unfold checkReturningUser
  split
  · cases h : jsStrOrNone st.userProfile.ip with
    | none => simp
    | some ip =>
      simp only [h]
      cases env.storedRecord ip <;> simp
  · rfl

/-- The page-view count produced by the initialization protocol: one when the
identity fetch succeeded, zero when it failed. -/
lemma initTracker_pageViews (env : Env) (ua sid : String) (t0 : Nat)
    (fetchResult : Option IpGeo) (pvDetails : List (String × String))
    (now : Nat) :
    (initTracker env (UserAnalytics.new ua sid t0) fetchResult pvDetails
        now).state.sessionData.pageViews
      = if fetchResult.isSome then 1 else 0 := by
  cases fetchResult with
  | none => rfl
  | some d =>
    show (logPageView env (checkReturningUser env _).1 pvDetails
        now).1.sessionData.pageViews = 1
    unfold logPageView logEvent
    simp only
    rw [checkReturningUser_pageViews]
    rfl

/-- C3 counterexample: after an initialization whose identity fetch failed,
initialize has completed (without throwing) yet the insight page-view count is
0, not at least 1. -/
theorem c3_counterexample :
    (initTracker envStd freshTracker none [] 0).threw = false ∧
    (getUserInsights (initTracker envStd freshTracker none [] 0).state
        0).behavior.pageViews = 0 :=
  ⟨rfl, rfl⟩

/-- C3 amended: the insight page-view count equals the number of logPageView
calls so far (the initialization one counts exactly when the identity fetch
succeeded), and it is at least 1 whenever initialization succeeded. -/
theorem c3_amended_pageViews (env : Env) (ua sid : String) (t0 : Nat)
    (fetchResult : Option IpGeo) (pvDetails : List (String × String))
    (now0 : Nat) (ops : List Op) (now1 : Nat) :
    (getUserInsights (runOps env (initTracker env (UserAnalytics.new ua sid t0)
          fetchResult pvDetails now0).state ops) now1).behavior.pageViews
      = (if fetchResult.isSome then 1 else 0) + countPageViews ops ∧
    (fetchResult.isSome = true →
      1 ≤ (getUserInsights (runOps env (initTracker env
            (UserAnalytics.new ua sid t0) fetchResult pvDetails now0).state
            ops) now1).behavior.pageViews) := by
  have hbase : (getUserInsights (runOps env (initTracker env
        (UserAnalytics.new ua sid t0) fetchResult pvDetails now0).state ops)
        now1).behavior.pageViews
      = (if fetchResult.isSome then 1 else 0) + countPageViews ops := by
    show (runOps env _ ops).sessionData.pageViews = _
    rw [runOps_pageViews, initTracker_pageViews]
  refine ⟨hbase, fun hsome => ?_⟩
  rw [hbase, hsome]
  simp

/-- Witness for C3 amended: a successful initialization with no further
operations yields an insight page-view count of 1 at least. -/
theorem c3_witness :
    (some (⟨"1.2.3.4", GeoData.empty⟩ : IpGeo)).isSome = true ∧
    1 ≤ (getUserInsights (runOps envStd (initTracker envStd
          (UserAnalytics.new "ua" "sid" 0)
          (some ⟨"1.2.3.4", GeoData.empty⟩) [] 5).state []) 9).behavior.pageViews :=
  ⟨rfl, (c3_amended_pageViews envStd "ua" "sid" 0 (some ⟨"1.2.3.4", GeoData.empty⟩)
      [] 5 [] 9).2 rfl⟩

/-- Last value of a scalar-preference call sequence, with a default for the
empty sequence. -/
def lastScalar (vs : List (String × Nat)) (d : Option String) : Option String :=
  match vs.getLast? with
  | some p => some p.1
  | none => d

lemma lastScalar_cons (p : String × Nat) (rest : List (String × Nat))
    (d : Option String) :
    lastScalar (p :: rest) d = lastScalar rest (some p.1) := by
  cases rest with
  | nil => rfl
  | cons q qs =>
    unfold lastScalar
    rw [List.getLast?_cons_cons, List.getLast?_eq_getLast (q :: qs) (by simp)]

lemma runWithRemote_cons (env : Env) (x : TrackerState × CallerPrefs)
    (op : Op) (ops : List Op) :
    runWithRemote env x (op :: ops)
      = runWithRemote env (stepWithRemote env x op) ops := rfl

/-- One rating call: no in-memory preference change, and the only landing
write overwrites the remote rating scalar. -/
lemma stepWithRemote_rating (env : Env) (x : TrackerState × CallerPrefs)
    (v : String) (now : Nat) (i : String)
    (hip : jsStrOrNone x.1.userProfile.ip = some i)
    (hfb : env.firebaseAvailable = true) :
    (stepWithRemote env x (.casinoPref .rating v now)).2
      = { x.2 with ratingPreference := some v } ∧
    (stepWithRemote env x (.casinoPref .rating v now)).1.sessionData.casinoPreferences
      = x.1.sessionData.casinoPreferences ∧
    (stepWithRemote env x (.casinoPref .rating v now)).1.userProfile
      = x.1.userProfile := by
  unfold stepWithRemote stepOp logCasinoPreference logEvent
    updatePreferencesInFirebase
  simp only [hip, hfb]
  cases haa : env.analyticsAvailable <;>
    simp [haa, applyWrites, applyWrite, applyPrefUpdate]

/-- One distance call, the mirror image of the rating case. -/
lemma stepWithRemote_distance (env : Env) (x : TrackerState × CallerPrefs)
    (v : String) (now : Nat) (i : String)
    (hip : jsStrOrNone x.1.userProfile.ip = some i)
    (hfb : env.firebaseAvailable = true) :
    (stepWithRemote env x (.casinoPref .distance v now)).2
      = { x.2 with distancePreference := some v } ∧
    (stepWithRemote env x (.casinoPref .distance v now)).1.sessionData.casinoPreferences
      = x.1.sessionData.casinoPreferences ∧
    (stepWithRemote env x (.casinoPref .distance v now)).1.userProfile
      = x.1.userProfile := by
  unfold stepWithRemote stepOp logCasinoPreference logEvent
    updatePreferencesInFirebase
  simp only [hip, hfb]
  cases haa : env.analyticsAvailable <;>
    simp [haa, applyWrites, applyWrite, applyPrefUpdate]

/-- A run of rating calls: the remote rating scalar ends at the last value
written and nothing changes in the in-memory aggregates. -/
lemma runWithRemote_rating_fold (env : Env) (hfb : env.firebaseAvailable = true)
    (vs : List (String × Nat)) :
    ∀ (x : TrackerState × CallerPrefs) (i : String),
      jsStrOrNone x.1.userProfile.ip = some i →
      (runWithRemote env x (vs.map fun p => Op.casinoPref .rating p.1 p.2)).2
        = { x.2 with ratingPreference := lastScalar vs x.2.ratingPreference } ∧
      (runWithRemote env x
          (vs.map fun p => Op.casinoPref .rating p.1 p.2)).1.sessionData.casinoPreferences
        = x.1.sessionData.casinoPreferences := by
  induction vs with
  | nil => intro x i hip; exact ⟨rfl, rfl⟩
  | cons p rest ih =>
    intro x i hip
    rw [List.map_cons, runWithRemote_cons]
    obtain ⟨h2, h1, h0⟩ := stepWithRemote_rating env x p.1 p.2 i hip hfb
    have hip' : jsStrOrNone (stepWithRemote env x
        (.casinoPref .rating p.1 p.2)).1.userProfile.ip = some i := by
      rw [h0]; exact hip
    obtain ⟨g2, g1⟩ := ih (stepWithRemote env x (.casinoPref .rating p.1 p.2)) i hip'
    refine ⟨?_, ?_⟩
    · rw [g2, h2, lastScalar_cons]
    · rw [g1, h1]

/-- A run of distance calls, the mirror image of the rating case. -/
lemma runWithRemote_distance_fold (env : Env)
    (hfb : env.firebaseAvailable = true) (vs : List (String × Nat)) :
    ∀ (x : TrackerState × CallerPrefs) (i : String),
      jsStrOrNone x.1.userProfile.ip = some i →
      (runWithRemote env x (vs.map fun p => Op.casinoPref .distance p.1 p.2)).2
        = { x.2 with distancePreference := lastScalar vs x.2.distancePreference } ∧
      (runWithRemote env x
          (vs.map fun p => Op.casinoPref .distance p.1 p.2)).1.sessionData.casinoPreferences
        = x.1.sessionData.casinoPreferences := by
  induction vs with
  | nil => intro x i hip; exact ⟨rfl, rfl⟩
  | cons p rest ih =>
    intro x i hip
    rw [List.map_cons, runWithRemote_cons]
    obtain ⟨h2, h1, h0⟩ := stepWithRemote_distance env x p.1 p.2 i hip hfb
    have hip' : jsStrOrNone (stepWithRemote env x
        (.casinoPref .distance p.1 p.2)).1.userProfile.ip = some i := by
      rw [h0]; exact hip
    obtain ⟨g2, g1⟩ := ih (stepWithRemote env x (.casinoPref .distance p.1 p.2)) i hip'
    refine ⟨?_, ?_⟩
    · rw [g2, h2, lastScalar_cons]
    · rw [g1, h1]

lemma lastScalar_of_ne_nil (vs : List (String × Nat)) (d : Option String)
    (hne : vs ≠ []) : lastScalar vs d = some ((vs.getLast hne).1) := by
  unfold lastScalar
  rw [List.getLast?_eq_getLast vs hne]

/-- C4: any nonempty sequence of rating (and likewise distance) preference
calls, with the identity key resolved and firebase present, leaves the single
remote rating (distance) scalar equal to the last value written; no other
preference field and no in-memory aggregate changes, so no history is kept. -/
theorem c4_scalar_last_write_wins (env : Env) (st : TrackerState)
    (prefs : CallerPrefs) (vs : List (String × Nat)) (i : String)
    (hip : jsStrOrNone st.userProfile.ip = some i)
    (hfb : env.firebaseAvailable = true) (hne : vs ≠ []) :
    (runWithRemote env (st, prefs)
        (vs.map fun p => Op.casinoPref .rating p.1 p.2)).2.ratingPreference
      = some ((vs.getLast hne).1) ∧
    (runWithRemote env (st, prefs)
        (vs.map fun p => Op.casinoPref .rating p.1 p.2)).2.distancePreference
      = prefs.distancePreference ∧
    (runWithRemote env (st, prefs)
        (vs.map fun p => Op.casinoPref .rating p.1 p.2)).2.categories
      = prefs.categories ∧
    (runWithRemote env (st, prefs)
        (vs.map fun p => Op.casinoPref .rating p.1 p.2)).2.amenities
      = prefs.amenities ∧
    (runWithRemote env (st, prefs)
        (vs.map fun p => Op.casinoPref .rating p.1 p.2)).2.clicked
      = prefs.clicked ∧
    (runWithRemote env (st, prefs)
        (vs.map fun p => Op.casinoPref .rating p.1 p.2)).2.mostViewedType
      = prefs.mostViewedType ∧
    (runWithRemote env (st, prefs)
        (vs.map fun p => Op.casinoPref .rating p.1 p.2)).1.sessionData.casinoPreferences
      = st.sessionData.casinoPreferences ∧
    (runWithRemote env (st, prefs)
        (vs.map fun p => Op.casinoPref .distance p.1 p.2)).2.distancePreference
      = some ((vs.getLast hne).1) ∧
    (runWithRemote env (st, prefs)
        (vs.map fun p => Op.casinoPref .distance p.1 p.2)).2.ratingPreference
      = prefs.ratingPreference := by
  obtain ⟨hr2, hr1⟩ := runWithRemote_rating_fold env hfb vs (st, prefs) i hip
  obtain ⟨hd2, _⟩ := runWithRemote_distance_fold env hfb vs (st, prefs) i hip
  rw [hr2, hd2]
  refine ⟨?_, rfl, rfl, rfl, rfl, rfl, hr1, ?_, rfl⟩
  · exact lastScalar_of_ne_nil vs _ hne
  · exact lastScalar_of_ne_nil vs _ hne

/-- The empty remote preference block. -/
def emptyCallerPrefs : CallerPrefs := ⟨[], [], [], none, none, none⟩

/-- A concrete state whose identity key resolved to 1.2.3.4. -/
def stWithIp : TrackerState :=
  (initTracker envStd freshTracker (some ⟨"1.2.3.4", GeoData.empty⟩) [] 5).state

/-- Witness for C4: record_preference(rating, low) then
record_preference(rating, high) leaves the remote rating scalar at high. -/
theorem c4_witness :
    jsStrOrNone stWithIp.userProfile.ip = some "1.2.3.4" ∧
    envStd.firebaseAvailable = true ∧
    ([("low", 1), ("high", 2)] : List (String × Nat)) ≠ [] ∧
    (runWithRemote envStd (stWithIp, emptyCallerPrefs)
        ([("low", 1), ("high", 2)].map fun p =>
          Op.casinoPref .rating p.1 p.2)).2.ratingPreference
      = some ((([("low", 1), ("high", 2)] : List (String × Nat)).getLast
          (by decide)).1) :=
  ⟨by decide, rfl, by decide,
   (c4_scalar_last_write_wins envStd stWithIp emptyCallerPrefs
      [("low", 1), ("high", 2)] "1.2.3.4" (by decide) rfl (by decide)).1⟩

/-- A concrete first-time-visitor state: identity resolved, no stored record,
so previousVisits is never assigned. -/
def stFirstTime : TrackerState := stWithIp

/-- C5 counterexample: for a first-time visitor, getUserInsights().profile
.visits is NaN (undefined + 1), not the stored previous visit count plus one
(which would be 1, or 2 counting the record just created). -/
theorem c5_counterexample :
    stFirstTime.userProfile.returning = false ∧
    (getUserInsights stFirstTime 9).profile.visits = JSNum.nan ∧
    (getUserInsights stFirstTime 9).profile.visits ≠ JSNum.num 1 ∧
    (getUserInsights stFirstTime 9).profile.visits ≠ JSNum.num 2 := by
  refine ⟨rfl, rfl, ?_, ?_⟩ <;> decide

/-- C5 amended: getUserInsights is a pure projection of the state (it is a
function of the state alone, by construction of the embedding); its visits
field is previousVisits + 1 for states where previousVisits was assigned (the
returning path), and NaN for states where it never was (first-time path). -/
theorem c5_amended_visits (st : TrackerState) (now : Nat) :
    (getUserInsights st now).profile.visits
      = (match st.previousVisits with
         | some n => JSNum.num (n + 1)
         | none => JSNum.nan) := rfl

/-- C6: with the identity field null every identity-keyed remote operation is
a no-op behind its null guard — the returning-user lookup leaves the state
untouched and writes nothing, the preference update writes nothing, and
logEvent emits no identity-keyed write — while the in-memory updates (the
interaction append, the viewed-map increment) still occur; every branch is a
total function, so nothing is thrown. -/
theorem c6_null_ip_remote_noop (env : Env) (st : TrackerState)
    (t : PrefType) (v : String) (e : String)
    (d : List (String × String)) (now : Nat)
    (h : st.userProfile.ip = none) :
    checkReturningUser env st = (st, []) ∧
    updatePreferencesInFirebase env st t v = [] ∧
    (logEvent env st e d now).2.filter RemoteWrite.isIdentityKeyed = [] ∧
    (logEvent env st e d now).1.sessionData.interactions
      = st.sessionData.interactions ++ [⟨e, d, now⟩] ∧
    (logCasinoPreference env st .category v
        now).1.sessionData.casinoPreferences.viewed
      = ObjMap.incr st.sessionData.casinoPreferences.viewed v := by
  have hjs : jsStrOrNone st.userProfile.ip = none := by rw [h]; rfl
  refine ⟨?_, ?_, ?_, rfl, rfl⟩
  · unfold checkReturningUser
    rw [hjs]
    split <;> rfl
  · unfold updatePreferencesInFirebase
    rw [hjs]
    split <;> rfl
  · unfold logEvent
    rw [hjs]
    simp only
    split <;> rfl

/-- Witness for C6: a fresh tracker whose identity fetch never ran. -/
theorem c6_witness :
    freshTracker.userProfile.ip = none ∧
    (checkReturningUser envStd freshTracker = (freshTracker, []) ∧
     updatePreferencesInFirebase envStd freshTracker .amenity "pool" = [] ∧
     (logEvent envStd freshTracker "x" [] 3).2.filter
        RemoteWrite.isIdentityKeyed = [] ∧
     (logEvent envStd freshTracker "x" [] 3).1.sessionData.interactions
       = freshTracker.sessionData.interactions ++ [⟨"x", [], 3⟩] ∧
     (logCasinoPreference envStd freshTracker .category "pool"
         3).1.sessionData.casinoPreferences.viewed
       = ObjMap.incr freshTracker.sessionData.casinoPreferences.viewed "pool") :=
  ⟨rfl, c6_null_ip_remote_noop envStd freshTracker .amenity "pool" "x" [] 3 rfl⟩

/-- C7: rendering 12 stored posts replaces whatever the container held with
the twelve posts in query order and exactly two promotional blocks, one
immediately before the post at index 5 and one immediately before the post at
index 10. -/
theorem c7_twelve_posts_two_ads (env : Env) (prev : List RenderedItem)
    (p0 p1 p2 p3 p4 p5 p6 p7 p8 p9 p10 p11 : PostDoc)
    (hfb : env.firebaseAvailable = true) :
    loadPosts env prev
        (.ok [p0, p1, p2, p3, p4, p5, p6, p7, p8, p9, p10, p11])
      = [RenderedItem.post p0, RenderedItem.post p1, RenderedItem.post p2,
         RenderedItem.post p3, RenderedItem.post p4, RenderedItem.ad,
         RenderedItem.post p5, RenderedItem.post p6, RenderedItem.post p7,
         RenderedItem.post p8, RenderedItem.post p9, RenderedItem.ad,
         RenderedItem.post p10, RenderedItem.post p11] := by
  unfold loadPosts
  rw [if_pos hfb]
  rfl

/-- Witness for C7 at twelve concrete posts over a dirty container. -/
theorem c7_witness :
    envStd.firebaseAvailable = true ∧
    loadPosts envStd [RenderedItem.ad]
        (.ok ((List.range 12).map fun k => ⟨toString k, "u", "t", none⟩))
      = [RenderedItem.post ⟨"0", "u", "t", none⟩,
         RenderedItem.post ⟨"1", "u", "t", none⟩,
         RenderedItem.post ⟨"2", "u", "t", none⟩,
         RenderedItem.post ⟨"3", "u", "t", none⟩,
         RenderedItem.post ⟨"4", "u", "t", none⟩, RenderedItem.ad,
         RenderedItem.post ⟨"5", "u", "t", none⟩,
         RenderedItem.post ⟨"6", "u", "t", none⟩,
         RenderedItem.post ⟨"7", "u", "t", none⟩,
         RenderedItem.post ⟨"8", "u", "t", none⟩,
         RenderedItem.post ⟨"9", "u", "t", none⟩, RenderedItem.ad,
         RenderedItem.post ⟨"10", "u", "t", none⟩,
         RenderedItem.post ⟨"11", "u", "t", none⟩] :=
  ⟨rfl, c7_twelve_posts_two_ads envStd [RenderedItem.ad]
    ⟨"0", "u", "t", none⟩ ⟨"1", "u", "t", none⟩ ⟨"2", "u", "t", none⟩
    ⟨"3", "u", "t", none⟩ ⟨"4", "u", "t", none⟩ ⟨"5", "u", "t", none⟩
    ⟨"6", "u", "t", none⟩ ⟨"7", "u", "t", none⟩ ⟨"8", "u", "t", none⟩
    ⟨"9", "u", "t", none⟩ ⟨"10", "u", "t", none⟩ ⟨"11", "u", "t", none⟩ rfl⟩

/-- C8: getBrowserInfo classifies by testing Chrome, Safari, Firefox, the
MSIE/Trident pair, then Edge, in that order; the first matching token wins,
and any remaining tokens in the user agent are ignored. -/
theorem c8_browser_priority_order (ua : String) :
    (jsIncludes ua "Chrome" = true → getBrowserInfo ua = "Chrome") ∧
    (jsIncludes ua "Chrome" = false → jsIncludes ua "Safari" = true →
      getBrowserInfo ua = "Safari") ∧
    (jsIncludes ua "Chrome" = false → jsIncludes ua "Safari" = false →
      jsIncludes ua "Firefox" = true → getBrowserInfo ua = "Firefox") ∧
    (jsIncludes ua "Chrome" = false → jsIncludes ua "Safari" = false →
      jsIncludes ua "Firefox" = false →
      (jsIncludes ua "MSIE" = true ∨ jsIncludes ua "Trident" = true) →
      getBrowserInfo ua = "IE") ∧
    (jsIncludes ua "Chrome" = false → jsIncludes ua "Safari" = false →
      jsIncludes ua "Firefox" = false → jsIncludes ua "MSIE" = false →
      jsIncludes ua "Trident" = false → jsIncludes ua "Edge" = true →
      getBrowserInfo ua = "Edge") ∧
    (jsIncludes ua "Chrome" = false → jsIncludes ua "Safari" = false →
      jsIncludes ua "Firefox" = false → jsIncludes ua "MSIE" = false →
      jsIncludes ua "Trident" = false → jsIncludes ua "Edge" = false →
      getBrowserInfo ua = "Unknown") := by
  refine ⟨?_, ?_, ?_, ?_, ?_, ?_⟩ <;>
    intros <;> simp_all [getBrowserInfo]

/-- Witness for C8: a user agent containing both Chrome and Safari tokens is
classified Chrome. -/
theorem c8_witness :
    jsIncludes "abcChromeSafari" "Chrome" = true ∧
    jsIncludes "abcChromeSafari" "Safari" = true ∧
    getBrowserInfo "abcChromeSafari" = "Chrome" :=
  ⟨by decide, by decide, (c8_browser_priority_order "abcChromeSafari").1 (by decide)⟩

/-- No operation ever assigns userProfile.username. -/
lemma stepOp_username (env : Env) (st : TrackerState) (op : Op) :
    (stepOp env st op).1.userProfile.username
      = st.userProfile.username := by
  cases op with
  | pageView d now => rfl
  | search q f now => rfl
  | casinoPref t v now => cases t <;> rfl
  | authChange u now => cases u <;> rfl
  | genericEvent e d now => rfl

lemma runOps_username (env : Env) (ops : List Op) : ∀ st : TrackerState,
    (runOps env st ops).userProfile.username = st.userProfile.username := by
  induction ops with
  | nil => intro st; rfl
  | cons op rest ih =>
    intro st
    show (runOps env ((stepOp env st op).1) rest).userProfile.username = _
    rw [ih, stepOp_username]

lemma checkReturningUser_username (env : Env) (st : TrackerState) :
    (checkReturningUser env st).1.userProfile.username
      = st.userProfile.username := by
  unfold checkReturningUser
  split
  · cases h : jsStrOrNone st.userProfile.ip with
    | none => simp
    | some ip =>
      simp only [h]
      cases env.storedRecord ip <;> simp
  · rfl

lemma initTracker_username (env : Env) (ua sid : String) (t0 : Nat)
    (fetch : Option IpGeo) (pv : List (String × String)) (now : Nat) :
    (initTracker env (UserAnalytics.new ua sid t0) fetch pv
        now).state.userProfile.username = none := by
  cases fetch with
  | none => rfl
  | some d =>
    show (logPageView env (checkReturningUser env _).1 pv
        now).1.userProfile.username = none
    unfold logPageView logEvent
    simp only
    rw [checkReturningUser_username]
    rfl

/-- A full page lifetime: construction, initialization, then the operation
sequence the page's handlers fire. -/
def trackerAfter (env : Env) (ua sid : String) (t0 : Nat)
    (fetch : Option IpGeo) (pv : List (String × String)) (now0 : Nat)
    (ops : List Op) : TrackerState :=
  runOps env (initTracker env (UserAnalytics.new ua sid t0) fetch pv now0).state ops

/-- The state of a session signed in through the auth signal with the uid
string anonymous. -/
def stAnonUid : TrackerState :=
  trackerAfter envStd "ua" "sid" 0 (some ⟨"1.2.3.4", GeoData.empty⟩) [] 5
    [Op.authChange (some ⟨"anonymous", "a@b"⟩) 7]

/-- C9 counterexample: a signed-in session whose uid is the literal string
anonymous produces a post whose userId is anonymous, so userId = anonymous
does not hold exactly when no user is signed in. -/
theorem c9_counterexample :
    stAnonUid.isAuthenticated = true ∧
    stAnonUid.userId = some "anonymous" ∧
    (createPostDoc stAnonUid "hi" none).userId = "anonymous" :=
  ⟨rfl, rfl, rfl⟩

/-- C9 amended: in every reachable tracker state the post's username is
Anonymous (userProfile.username is never assigned), and its userId is
anonymous precisely when no uid is held, the held uid is the empty string
(JS-falsy), or the held uid is itself the literal anonymous; with a signed-in
truthy uid the post carries that uid. -/
theorem c9_amended_post_identity (env : Env) (ua sid : String) (t0 : Nat)
    (fetch : Option IpGeo) (pv : List (String × String)) (now0 : Nat)
    (ops : List Op) (text : String) (vurl : Option String) :
    (createPostDoc (trackerAfter env ua sid t0 fetch pv now0 ops) text
        vurl).username = "Anonymous" ∧
    ((createPostDoc (trackerAfter env ua sid t0 fetch pv now0 ops) text
        vurl).userId = "anonymous" ↔
      ((trackerAfter env ua sid t0 fetch pv now0 ops).userId = none ∨
       (trackerAfter env ua sid t0 fetch pv now0 ops).userId = some "" ∨
       (trackerAfter env ua sid t0 fetch pv now0 ops).userId
         = some "anonymous")) := by
  have hu : (trackerAfter env ua sid t0 fetch pv now0 ops).userProfile.username
      = none := by
    unfold trackerAfter
    rw [runOps_username, initTracker_username]
  constructor
  · unfold createPostDoc
    rw [hu]
    rfl
  · unfold createPostDoc
    cases hid : (trackerAfter env ua sid t0 fetch pv now0 ops).userId with
    | none => simp [jsStrOrNone]
    | some u =>
      by_cases hue : u = ""
      · simp [jsStrOrNone, hue]
      · simp [jsStrOrNone, hue]

/-- C10: the container is cleared before the query is issued, so when the
query fails the catch branch leaves the container empty whatever it held
before — the previously rendered posts are not restored. -/
theorem c10_error_leaves_container_empty (env : Env)
    (prev : List RenderedItem) (err : Unit)
    (hfb : env.firebaseAvailable = true) :
    loadPosts env prev (.error err) = [] := by
  unfold loadPosts
  rw [if_pos hfb]

/-- Witness for C10: a failing query over a non-empty container. -/
theorem c10_witness :
    envStd.firebaseAvailable = true ∧
    loadPosts envStd [RenderedItem.ad, RenderedItem.post ⟨"0", "u", "t", none⟩]
        (.error ()) = [] :=
  ⟨rfl, c10_error_leaves_container_empty envStd
    [RenderedItem.ad, RenderedItem.post ⟨"0", "u", "t", none⟩] () rfl⟩
